import Mathlib

/-
Verification of the MysteriumNetwork/node connection Manager specification.

The repository provides the Manager test suite (connection package) and the
Windows routing-table helper. The connection Manager itself is modelled from
the specification (sections 3, 4.1, 4.4, 4.6), with the concrete expectations
of the in-repo test suite (mock resolver semantics, session id "session-100",
injected time source) taken as authoritative where they pin behaviour down.
-/

namespace connection

/-- Manager-level connection state (spec section 3): the closed finite set of
states of the session state machine. -/
inductive State where
  | NotConnected
  | Connecting
  | Connected
  | Reconnecting
  | Disconnecting
  | StateIPNotChanged
deriving DecidableEq, Repr

/-- Tunnel-level states reported by the Connection (spec section 4.2). -/
inductive FakeState where
  | processStarted
  | connectingState
  | waitState
  | authenticatingState
  | getConfigState
  | assignIPState
  | connectedState
  | reconnectingState
  | exitingState
  | processExited
deriving DecidableEq, Repr

/-- A service proposal, opaque to the core: provider id and service type are
the fields the tests observe. -/
structure ServiceProposal where
  providerID : String
  serviceType : String
deriving DecidableEq, Repr

/-- Connect options (spec section 3). -/
structure ConnectParams where
  dnsConfig : String
  disableKillSwitch : Bool
deriving DecidableEq, Repr

/-- The public Status snapshot (spec section 3). Time is a Nat tick of the
injected time source. -/
structure Status where
  state : State
  startedAt : Nat
  consumerID : String
  hermesID : String
  sessionID : String
  proposal : ServiceProposal
deriving DecidableEq, Repr

/-- IP check configuration (spec section 3). -/
structure IPCheckConfig where
  maxAttempts : Nat
  sleepDurationAfterCheck : Nat
deriving DecidableEq, Repr

/-- Keepalive configuration (spec section 3). -/
structure KeepAliveConfig where
  sendInterval : Nat
  maxSendErrCount : Nat
deriving DecidableEq, Repr

/-- Manager configuration (spec section 3). -/
structure Config where
  ipCheck : IPCheckConfig
  keepAlive : KeepAliveConfig
deriving DecidableEq, Repr

/-- The arguments of the last Connect call, recorded for wake-up reconnect
(spec section 4.6). -/
structure ConnectArgs where
  consumerID : String
  hermesID : String
  proposal : ServiceProposal
  params : ConnectParams
deriving DecidableEq, Repr

/-- Modelled from the spec: the connection Manager object. The implementation
of the connection package is not in the repository, so its observable state is
modelled from spec sections 3 and 4.1: the Status snapshot, the immutable
configuration, the payment issuer Start and Stop call counters, and the last
recorded Connect arguments. -/
structure ConnManager where
  status : Status
  config : Config
  issuerStartCount : Nat
  issuerStopCount : Nat
  lastArgs : Option ConnectArgs
deriving DecidableEq, Repr

/-- Errors of the Manager public contract (spec section 7). -/
inductive ConnErr where
  | ErrAlreadyExists
  | ErrConnectionCancelled
  | ErrConnectionFailed
  | ErrNoConnection
  | upstream (msg : String)
deriving DecidableEq, Repr

/-- Events published on the event bus, restricted to the topics the claims
observe (spec section 6). -/
inductive Event where
  | stateEvent (s : State)
  | sessionCreated
  | sessionEnded
deriving DecidableEq, Repr

/-- Connectivity status codes of the P2P SessionStatus message (spec
section 6). -/
inductive StatusCode where
  | StatusConnectionOk
  | StatusSessionIPNotChanged
deriving DecidableEq, Repr

/-- The P2P SessionStatus protobuf message (spec section 6). -/
structure SessionStatusMsg where
  consumerID : String
  sessionID : String
  code : StatusCode
  message : String
deriving DecidableEq, Repr

/-- The environment of one Connect call: the injected time source value, the
successive results of the IP resolver, the possible failures of each external
collaborator, the remote session-create response id, the tunnel states the
Connection reports after Start, and whether a Disconnect cancellation arrives
while Connect is waiting. -/
structure ConnectEnv where
  now : Nat
  resolverIPs : List String
  dialError : Option String
  validatorError : Option String
  sessionCreateID : String
  factoryError : Option String
  startError : Option String
  tunnelStates : List FakeState
  cancelledDuringWait : Bool
deriving DecidableEq, Repr

/-- The mock IP resolver of the test suite returns its configured values in
order and keeps returning the last one once they are exhausted. -/
def resolveAt (ips : List String) (k : Nat) : String :=
  match ips, k with
  | [], _ => ""
  | a :: _, 0 => a
  | a :: rest, Nat.succ k => if rest = [] then a else resolveAt rest k

/-- The outcome Connect waits for (spec section 4.1 step 9): the first
decisive event among connectedState, processExited and cancellation. -/
inductive WaitOutcome where
  | reachedConnected
  | exited
  | cancelled
deriving DecidableEq, Repr

/-- Scan the reported tunnel states for the first decisive one: connectedState
completes the wait, processExited fails it. -/
def firstDecisive : List FakeState → Option WaitOutcome
  | [] => none
  | s :: rest =>
    if s = FakeState.connectedState then some WaitOutcome.reachedConnected
    else if s = FakeState.processExited then some WaitOutcome.exited
    else firstDecisive rest

/-- The decisive outcome of the Connect wait: a decisive tunnel state if one
is reported, else cancellation if a Disconnect arrives, else the wait blocks
(none). -/
def waitOutcome (states : List FakeState) (cancelled : Bool) : Option WaitOutcome :=
  match firstDecisive states with
  | some o => some o
  | none => if cancelled then some WaitOutcome.cancelled else none

/-- Modelled from the spec: the IP change probe decision (spec section 4.4).
True iff some attempt among the first maxAttempts sees a public IP different
from the pre-connect baseline. Probe attempt k consumes resolver value k + 1
because the baseline consumed value 0. -/
def ipChangedWithin (baseline : String) (ips : List String) (maxAttempts : Nat) : Bool :=
  (List.range maxAttempts).any fun k => resolveAt ips (k + 1) != baseline

/-- State events published by the IP change probe: StateIPNotChanged exactly
when the IP never changed (spec section 4.4). -/
def ipCheckEvents (changed : Bool) : List Event :=
  if changed then [] else [Event.stateEvent State.StateIPNotChanged]

/-- The single P2P SessionStatus message the IP change probe sends (spec
section 4.4). -/
def ipCheckMsg (consumer sessionID : String) (changed : Bool) : SessionStatusMsg :=
  { consumerID := consumer
    sessionID := sessionID
    code := if changed then StatusCode.StatusConnectionOk else StatusCode.StatusSessionIPNotChanged
    message := "" }

/-- Roll the status back to NotConnected on a failed Connect or a completed
Disconnect. The test suite shows the identifying fields, sessionID included,
are preserved in the snapshot. -/
def rollback (st : Status) : Status :=
  { st with state := State.NotConnected }

/-- The observable result of one Connect call: the returned error (none on
success), the Manager afterwards, the events published on the bus, and the
P2P SessionStatus messages sent. -/
structure ConnectResult where
  err : Option ConnErr
  manager : ConnManager
  events : List Event
  sentStatusMsgs : List SessionStatusMsg
deriving DecidableEq, Repr

/-- The observable result of one Disconnect call. -/
structure DisconnectResult where
  err : Option ConnErr
  manager : ConnManager
  events : List Event
deriving DecidableEq, Repr

/-- Modelled from the spec: connectionManager.Connect (spec section 4.1,
Connect algorithm; the implementation is not in the repository). Fails with
ErrAlreadyExists unless NotConnected; records startedAt, consumerID, hermesID
and proposal; captures the baseline IP; dials, validates, instantiates the
Connection via the factory, creates the remote session, starts the payment
issuer, starts the Connection; then waits for connectedState, processExited
or cancellation; on success runs the IP change probe. Returns none when the
wait never resolves. -/
def Connect (m : ConnManager) (cid hid : String) (proposal : ServiceProposal)
    (params : ConnectParams) (env : ConnectEnv) : Option ConnectResult :=
  if m.status.state ≠ State.NotConnected then
    some { err := some ConnErr.ErrAlreadyExists, manager := m, events := [], sentStatusMsgs := [] }
  else
    let st1 : Status :=
      { state := State.Connecting, startedAt := env.now, consumerID := cid
        hermesID := hid, sessionID := "", proposal := proposal }
    let args : ConnectArgs := { consumerID := cid, hermesID := hid, proposal := proposal, params := params }
    let m1 : ConnManager := { m with status := st1, lastArgs := some args }
    let evs0 : List Event := [Event.stateEvent State.Connecting]
    let baseline : String := resolveAt env.resolverIPs 0
    match env.dialError with
    | some e =>
      some { err := some (ConnErr.upstream e), manager := { m1 with status := rollback st1 }
             events := evs0, sentStatusMsgs := [] }
    | none =>
    match env.validatorError with
    | some e =>
      some { err := some (ConnErr.upstream e), manager := { m1 with status := rollback st1 }
             events := evs0, sentStatusMsgs := [] }
    | none =>
    match env.factoryError with
    | some e =>
      some { err := some (ConnErr.upstream e), manager := { m1 with status := rollback st1 }
             events := evs0, sentStatusMsgs := [] }
    | none =>
    let st2 : Status := { st1 with sessionID := env.sessionCreateID }
    let m2 : ConnManager := { m1 with status := st2 }
    let evs1 : List Event := evs0 ++ [Event.sessionCreated]
    let m3 : ConnManager := { m2 with issuerStartCount := m2.issuerStartCount + 1 }
    match env.startError with
    | some e =>
      some { err := some (ConnErr.upstream e)
             manager := { m3 with status := rollback st2, issuerStopCount := m3.issuerStopCount + 1 }
             events := evs1 ++ [Event.sessionEnded], sentStatusMsgs := [] }
    | none =>
    match waitOutcome env.tunnelStates env.cancelledDuringWait with
    | none => none
    | some WaitOutcome.cancelled =>
      some { err := some ConnErr.ErrConnectionCancelled
             manager := { m3 with status := rollback st2, issuerStopCount := m3.issuerStopCount + 1 }
             events := evs1 ++ [Event.sessionEnded], sentStatusMsgs := [] }
    | some WaitOutcome.exited =>
      some { err := some ConnErr.ErrConnectionFailed
             manager := { m3 with status := rollback st2, issuerStopCount := m3.issuerStopCount + 1 }
             events := evs1 ++ [Event.sessionEnded], sentStatusMsgs := [] }
    | some WaitOutcome.reachedConnected =>
      let changed : Bool := ipChangedWithin baseline env.resolverIPs m.config.ipCheck.maxAttempts
      some { err := none
             manager := { m3 with status := { st2 with state := State.Connected } }
             events := evs1 ++ [Event.stateEvent State.Connected] ++ ipCheckEvents changed
             sentStatusMsgs := [ipCheckMsg cid env.sessionCreateID changed] }

/-- Modelled from the spec: connectionManager.Disconnect (spec section 4.1,
Disconnect algorithm). Returns ErrNoConnection when NotConnected; otherwise
stops the payment issuer (idempotently), tears the session down, publishes
the final state event and SessionEnded, and transitions to NotConnected. The
test suite shows the Status fields of the ended session, sessionID included,
stay observable. -/
def Disconnect (m : ConnManager) : DisconnectResult :=
  if m.status.state = State.NotConnected then
    { err := some ConnErr.ErrNoConnection, manager := m, events := [] }
  else
    { err := none
      manager :=
        { m with
          status := rollback m.status
          issuerStopCount :=
            if m.issuerStopCount < m.issuerStartCount then m.issuerStopCount + 1
            else m.issuerStopCount }
      events := [Event.stateEvent State.NotConnected, Event.sessionEnded] }

/-- Modelled from the spec: the sleep watcher wake-up handler (spec
section 4.6). On EventWakeup while Connected, Reconnecting or Connecting, it
runs Disconnect followed by a new Connect with the last recorded arguments;
otherwise the event is ignored. Returns the Manager afterwards, the events
published and the status messages sent; none when the reconnect blocks. -/
def handleWakeup (m : ConnManager) (env : ConnectEnv) :
    Option (ConnManager × List Event × List SessionStatusMsg) :=
  if m.status.state = State.Connected ∨ m.status.state = State.Reconnecting ∨
      m.status.state = State.Connecting then
    match m.lastArgs with
    | none => some (m, [], [])
    | some args =>
      let d := Disconnect m
      match Connect d.manager args.consumerID args.hermesID args.proposal args.params env with
      | none => none
      | some c => some (c.manager, d.events ++ c.events, c.sentStatusMsgs)
  else some (m, [], [])

/-- Consumer identity of the test suite. -/
def consumerID : String := "identity-1"

/-- Hermes address of the test suite. -/
def hermesID : String := "hermes"

/-- The active proposal of the test suite. -/
def activeProposal : ServiceProposal :=
  { providerID := "fake-node-1", serviceType := "fake-service" }

/-- The session id the mock P2P channel returns for session-create. -/
def establishedSessionID : String := "session-100"

/-- The injected time source value of the test suite, as an abstract tick. -/
def mockTime : Nat := 946635123

/-- Empty connect params, as in the tests. -/
def noParams : ConnectParams := { dnsConfig := "", disableKillSwitch := false }

/-- The test configuration: IP check with 3 attempts. -/
def defaultConfig : Config :=
  { ipCheck := { maxAttempts := 3, sleepDurationAfterCheck := 1 }
    keepAlive := { sendInterval := 100, maxSendErrCount := 5 } }

/-- A fresh Manager: NotConnected, zeroed Status, no issuer activity. -/
def freshManager (cfg : Config) : ConnManager :=
  { status :=
      { state := State.NotConnected, startedAt := 0, consumerID := "", hermesID := ""
        sessionID := "", proposal := { providerID := "", serviceType := "" } }
    config := cfg
    issuerStartCount := 0
    issuerStopCount := 0
    lastArgs := none }

/-- The full tunnel state sequence the mock Connection reports on Start in
the happy path. -/
def fullOnStartStates : List FakeState :=
  [FakeState.processStarted, FakeState.connectingState, FakeState.waitState,
   FakeState.authenticatingState, FakeState.getConfigState, FakeState.assignIPState,
   FakeState.connectedState]

/-- The happy-path Connect environment of the test suite: no failures, the
mock resolver always answers "ip", the remote answers "session-100", and the
full tunnel state sequence is reported. -/
def happyEnv : ConnectEnv :=
  { now := mockTime, resolverIPs := ["ip"], dialError := none, validatorError := none
    sessionCreateID := establishedSessionID, factoryError := none, startError := none
    tunnelStates := fullOnStartStates, cancelledDuringWait := false }

/-- A Manager with an established session, as produced by the happy-path
Connect; used to instantiate universally quantified theorems. -/
def connectedManager : ConnManager :=
  { status :=
      { state := State.Connected, startedAt := mockTime, consumerID := consumerID
        hermesID := hermesID, sessionID := establishedSessionID, proposal := activeProposal }
    config := defaultConfig
    issuerStartCount := 1
    issuerStopCount := 0
    lastArgs := some { consumerID := consumerID, hermesID := hermesID
                       proposal := activeProposal, params := noParams } }

end connection

namespace network

/-- Result of running an external command and collecting its combined output:
the output text and the command error, none on success. -/
structure CmdResult where
  out : String
  err : Option String
deriving DecidableEq, Repr

/-- Go error values as rendered strings; wrapping a nil error with the %w verb
still yields a non-nil error whose text shows the nil. -/
def wrapErr (prefixText : String) (e : Option String) : String :=
  prefixText ++ (match e with | some msg => msg | none => "%!w(<nil>)")

/-- RoutingTable.ExcludeRule (src/router/network/network_windows.go lines
42-45): runs the powershell route add command and returns
fmt.Errorf with the combined output and the command error, unconditionally,
without checking whether the command error is nil. The command runner is
injected as a function from the command text to its result. -/
def ExcludeRule (run : String → CmdResult) (ip gw : String) : Option String :=
  let r := run ("route add " ++ ip ++ "/32 " ++ gw)
  some (wrapErr (r.out ++ ": ") r.err)

/-- RoutingTable.DeleteRule (src/router/network/network_windows.go lines
49-56): runs the route delete command and wraps only an actual error, so it
returns none on success. -/
def DeleteRule (run : String → CmdResult) (ip : String) : Option String :=
  let r := run ("route delete " ++ ip ++ "/32")
  match r.err with
  | some e => some ("failed to delete route: " ++ e ++ ", " ++ r.out)
  | none => none

end network

namespace connection

/-- Claim C1: for a fresh Manager whose Connection reports the full tunnel
state sequence ending in connectedState, Connect returns nil and the Status
snapshot is Connected with sessionID "session-100", the injected time,
and the given consumerID, hermesID and proposal. -/
theorem connect_happy_path_status :
    (Connect (freshManager defaultConfig) consumerID hermesID activeProposal noParams happyEnv).map
        (fun r => (r.err, r.manager.status)) =
      some (none,
        { state := State.Connected, startedAt := mockTime, consumerID := consumerID
          hermesID := hermesID, sessionID := establishedSessionID, proposal := activeProposal }) := by
  rfl

/-- Claim C2: for every Manager whose state is not NotConnected, a second
Connect call returns ErrAlreadyExists, leaves the Manager unchanged and
publishes no event, so no second session is created. -/
theorem connect_active_session_already_exists (m : ConnManager) (cid hid : String)
    (p : ServiceProposal) (pr : ConnectParams) (env : ConnectEnv)
    (h : m.status.state ≠ State.NotConnected) :
    Connect m cid hid p pr env =
      some { err := some ConnErr.ErrAlreadyExists, manager := m, events := []
             sentStatusMsgs := [] } := by
  simp [Connect, h]

/-- Witness for claim C2 at the established happy-path Manager. -/
theorem connect_active_session_already_exists_witness :
    Connect connectedManager consumerID hermesID activeProposal noParams happyEnv =
      some { err := some ConnErr.ErrAlreadyExists, manager := connectedManager, events := []
             sentStatusMsgs := [] } :=
  connect_active_session_already_exists connectedManager consumerID hermesID activeProposal
    noParams happyEnv (by decide)

/-- Claim C5: Disconnect returns ErrNoConnection whenever the state is
NotConnected, both on a fresh Manager and on every repeated Disconnect after
a successful one. -/
theorem disconnect_not_connected_err (m : ConnManager) :
    (m.status.state = State.NotConnected →
      Disconnect m = { err := some ConnErr.ErrNoConnection, manager := m, events := [] })
    ∧ ((Disconnect m).err = none →
      (Disconnect (Disconnect m).manager).err = some ConnErr.ErrNoConnection) := by
  constructor
  · intro h
    simp [Disconnect, h]
  · intro h
    by_cases hm : m.status.state = State.NotConnected
    · simp [Disconnect, hm] at h
    · simp [Disconnect, hm, rollback]

/-- Witness for claim C5: a fresh Manager errors at once, and a double
Disconnect of the established Manager errors on the second call. -/
theorem disconnect_not_connected_err_witness :
    Disconnect (freshManager defaultConfig) =
      { err := some ConnErr.ErrNoConnection, manager := freshManager defaultConfig, events := [] }
    ∧ (Disconnect (Disconnect connectedManager).manager).err = some ConnErr.ErrNoConnection :=
  ⟨(disconnect_not_connected_err (freshManager defaultConfig)).1 rfl,
   (disconnect_not_connected_err connectedManager).2 (by decide)⟩

/-- Claim C6 counterexample: disconnecting the established happy-path session
leaves Status.sessionID equal to "session-100"; it is not cleared to the
empty string as the claim states. -/
theorem disconnect_sessionID_not_cleared_cex :
    (Connect (freshManager defaultConfig) consumerID hermesID activeProposal noParams happyEnv).map
        (fun r => (Disconnect r.manager).manager.status.sessionID) = some establishedSessionID
    ∧ establishedSessionID ≠ "" := by
  exact ⟨rfl, by decide⟩

/-- Claim C6 (amended): after Disconnect of an active session completes, the
state is NotConnected and Status retains sessionID, startedAt, consumerID,
hermesID and proposal of the ended session. -/
theorem disconnect_preserves_status_fields (m : ConnManager)
    (h : m.status.state ≠ State.NotConnected) :
    (Disconnect m).err = none ∧
    (Disconnect m).manager.status =
      { state := State.NotConnected, startedAt := m.status.startedAt
        consumerID := m.status.consumerID, hermesID := m.status.hermesID
        sessionID := m.status.sessionID, proposal := m.status.proposal } := by
  simp [Disconnect, h, rollback]

/-- Witness for the amended claim C6 at the established Manager. -/
theorem disconnect_preserves_status_fields_witness :
    (Disconnect connectedManager).err = none ∧
    (Disconnect connectedManager).manager.status =
      { state := State.NotConnected, startedAt := connectedManager.status.startedAt
        consumerID := connectedManager.status.consumerID
        hermesID := connectedManager.status.hermesID
        sessionID := connectedManager.status.sessionID
        proposal := connectedManager.status.proposal } :=
  disconnect_preserves_status_fields connectedManager (by decide)

end connection

namespace network

/-- Claim C10: for every pair of IP addresses and every behaviour of the
route-add command, RoutingTable.ExcludeRule returns a non-nil error, because
the command result is unconditionally wrapped. -/
theorem excludeRule_always_errors (run : String → CmdResult) (ip gw : String) :
    ExcludeRule run ip gw ≠ none := by
  simp [ExcludeRule]

end network

namespace connection

/-- Claim C3: if Disconnect cancels a Connect that is still waiting (no
decisive tunnel state was reported), Connect returns ErrConnectionCancelled
and the final state is NotConnected. -/
theorem disconnect_cancels_inflight_connect (m : ConnManager) (cid hid : String)
    (p : ServiceProposal) (pr : ConnectParams) (now : Nat) (ips : List String)
    (sid : String) (states : List FakeState)
    (hm : m.status.state = State.NotConnected)
    (hs : firstDecisive states = none) :
    (Connect m cid hid p pr
        { now := now, resolverIPs := ips, dialError := none, validatorError := none
          sessionCreateID := sid, factoryError := none, startError := none
          tunnelStates := states, cancelledDuringWait := true }).map
      (fun r => (r.err, r.manager.status.state)) =
    some (some ConnErr.ErrConnectionCancelled, State.NotConnected) := by
  have hw : waitOutcome states true = some WaitOutcome.cancelled := by
    simp [waitOutcome, hs]
  simp [Connect, hm, hw, rollback]

/-- Witness for claim C3: a fresh Manager, no tunnel state reported,
cancellation during the wait. -/
theorem disconnect_cancels_inflight_connect_witness :
    (Connect (freshManager defaultConfig) consumerID hermesID activeProposal noParams
        { now := mockTime, resolverIPs := ["ip"], dialError := none, validatorError := none
          sessionCreateID := establishedSessionID, factoryError := none, startError := none
          tunnelStates := [], cancelledDuringWait := true }).map
      (fun r => (r.err, r.manager.status.state)) =
    some (some ConnErr.ErrConnectionCancelled, State.NotConnected) :=
  disconnect_cancels_inflight_connect (freshManager defaultConfig) consumerID hermesID
    activeProposal noParams mockTime ["ip"] establishedSessionID [] rfl rfl

/-- Claim C4: if the Connection reports processExited before ever reporting
connectedState, the pending Connect returns ErrConnectionFailed. -/
theorem process_exit_during_connect_fails (m : ConnManager) (cid hid : String)
    (p : ServiceProposal) (pr : ConnectParams) (now : Nat) (ips : List String)
    (sid : String) (states : List FakeState) (c : Bool)
    (hm : m.status.state = State.NotConnected)
    (hs : firstDecisive states = some WaitOutcome.exited) :
    (Connect m cid hid p pr
        { now := now, resolverIPs := ips, dialError := none, validatorError := none
          sessionCreateID := sid, factoryError := none, startError := none
          tunnelStates := states, cancelledDuringWait := c }).map
      (fun r => (r.err, r.manager.status.state)) =
    some (some ConnErr.ErrConnectionFailed, State.NotConnected) := by
  have hw : waitOutcome states c = some WaitOutcome.exited := by
    simp [waitOutcome, hs]
  simp [Connect, hm, hw, rollback]

/-- Witness for claim C4: a fresh Manager whose Connection reports only
processExited. -/
theorem process_exit_during_connect_fails_witness :
    (Connect (freshManager defaultConfig) consumerID hermesID activeProposal noParams
        { now := mockTime, resolverIPs := ["ip"], dialError := none, validatorError := none
          sessionCreateID := establishedSessionID, factoryError := none, startError := none
          tunnelStates := [FakeState.processExited], cancelledDuringWait := false }).map
      (fun r => (r.err, r.manager.status.state)) =
    some (some ConnErr.ErrConnectionFailed, State.NotConnected) :=
  process_exit_during_connect_fails (freshManager defaultConfig) consumerID hermesID
    activeProposal noParams mockTime ["ip"] establishedSessionID [FakeState.processExited]
    false rfl rfl

/-- The IP probe decision is true exactly when some attempt within the limit
sees an IP different from the baseline. -/
theorem ipChangedWithin_iff (b : String) (ips : List String) (M : Nat) :
    ipChangedWithin b ips M = true ↔ ∃ k, k < M ∧ resolveAt ips (k + 1) ≠ b := by
  simp [ipChangedWithin, List.any_eq_true, List.mem_range, bne_iff_ne]

/-- The IP probe decision is false exactly when every attempt within the
limit sees the baseline IP again. -/
theorem ipChangedWithin_eq_false_iff (b : String) (ips : List String) (M : Nat) :
    ipChangedWithin b ips M = false ↔ ∀ k, k < M → resolveAt ips (k + 1) = b := by
  simp [ipChangedWithin, List.any_eq_false, List.mem_range, bne_iff_ne]

end connection

namespace connection

/-- Claim C7: on every Connect path that reaches Connected, if the resolved
IP differs from the pre-connect baseline at some probe attempt then the
messages sent are exactly one P2P SessionStatus with code StatusConnectionOk
and the published events are exactly Connecting, SessionCreated and Connected
with no StateIPNotChanged among them; if the IP is unchanged for all
IPCheck.MaxAttempts attempts then a StateIPNotChanged state event is
published in addition and the single SessionStatus sent carries
StatusSessionIPNotChanged; the session stays Connected either way. -/
theorem ipcheck_probe_reports (m : ConnManager) (cid hid : String)
    (p : ServiceProposal) (pr : ConnectParams) (now : Nat) (ips : List String)
    (sid : String) (states : List FakeState) (c : Bool)
    (hm : m.status.state = State.NotConnected)
    (hs : firstDecisive states = some WaitOutcome.reachedConnected) :
    ((∃ k, k < m.config.ipCheck.maxAttempts ∧ resolveAt ips (k + 1) ≠ resolveAt ips 0) →
      (Connect m cid hid p pr
          { now := now, resolverIPs := ips, dialError := none, validatorError := none
            sessionCreateID := sid, factoryError := none, startError := none
            tunnelStates := states, cancelledDuringWait := c }).map
        (fun r => (r.sentStatusMsgs, r.events, r.manager.status.state)) =
      some ([{ consumerID := cid, sessionID := sid, code := StatusCode.StatusConnectionOk
               message := "" }],
            [Event.stateEvent State.Connecting, Event.sessionCreated,
             Event.stateEvent State.Connected],
            State.Connected))
    ∧ ((∀ k, k < m.config.ipCheck.maxAttempts → resolveAt ips (k + 1) = resolveAt ips 0) →
      (Connect m cid hid p pr
          { now := now, resolverIPs := ips, dialError := none, validatorError := none
            sessionCreateID := sid, factoryError := none, startError := none
            tunnelStates := states, cancelledDuringWait := c }).map
        (fun r => (r.sentStatusMsgs, r.events, r.manager.status.state)) =
      some ([{ consumerID := cid, sessionID := sid
               code := StatusCode.StatusSessionIPNotChanged, message := "" }],
            [Event.stateEvent State.Connecting, Event.sessionCreated,
             Event.stateEvent State.Connected, Event.stateEvent State.StateIPNotChanged],
            State.Connected)) := by
  have hw : waitOutcome states c = some WaitOutcome.reachedConnected := by
    simp [waitOutcome, hs]
  constructor
  · intro h
    have hc : ipChangedWithin (resolveAt ips 0) ips m.config.ipCheck.maxAttempts = true :=
      (ipChangedWithin_iff _ _ _).2 h
    simp [Connect, hm, hw, hc, ipCheckEvents, ipCheckMsg]
  · intro h
    have hc : ipChangedWithin (resolveAt ips 0) ips m.config.ipCheck.maxAttempts = false :=
      (ipChangedWithin_eq_false_iff _ _ _).2 h
    simp [Connect, hm, hw, hc, ipCheckEvents, ipCheckMsg]

/-- Witness for claim C7: a changing resolver first, an unchanged resolver
second, both against a fresh Manager with 3 probe attempts. -/
theorem ipcheck_probe_reports_witness :
    ((Connect (freshManager defaultConfig) consumerID hermesID activeProposal noParams
        { now := mockTime, resolverIPs := ["127.0.0.1", "10.0.0.4", "10.0.5"]
          dialError := none, validatorError := none
          sessionCreateID := establishedSessionID, factoryError := none, startError := none
          tunnelStates := [FakeState.connectedState], cancelledDuringWait := false }).map
      (fun r => (r.sentStatusMsgs, r.events, r.manager.status.state)) =
    some ([{ consumerID := consumerID, sessionID := establishedSessionID
             code := StatusCode.StatusConnectionOk, message := "" }],
          [Event.stateEvent State.Connecting, Event.sessionCreated,
           Event.stateEvent State.Connected],
          State.Connected))
    ∧ ((Connect (freshManager defaultConfig) consumerID hermesID activeProposal noParams
        { now := mockTime, resolverIPs := ["ip"]
          dialError := none, validatorError := none
          sessionCreateID := establishedSessionID, factoryError := none, startError := none
          tunnelStates := [FakeState.connectedState], cancelledDuringWait := false }).map
      (fun r => (r.sentStatusMsgs, r.events, r.manager.status.state)) =
    some ([{ consumerID := consumerID, sessionID := establishedSessionID
             code := StatusCode.StatusSessionIPNotChanged, message := "" }],
          [Event.stateEvent State.Connecting, Event.sessionCreated,
           Event.stateEvent State.Connected, Event.stateEvent State.StateIPNotChanged],
          State.Connected)) :=
  ⟨(ipcheck_probe_reports (freshManager defaultConfig) consumerID hermesID activeProposal
      noParams mockTime ["127.0.0.1", "10.0.0.4", "10.0.5"] establishedSessionID
      [FakeState.connectedState] false rfl rfl).1 ⟨0, by decide, by decide⟩,
   (ipcheck_probe_reports (freshManager defaultConfig) consumerID hermesID activeProposal
      noParams mockTime ["ip"] establishedSessionID
      [FakeState.connectedState] false rfl rfl).2 (by decide)⟩

end connection

namespace connection

/-- Claim C8: for a session on a fresh Manager, the payment issuer is Started
exactly once and, after Disconnect, Stopped exactly once; after a successful
Connect, Start has been called and Stop has not; when Connect fails because
Connection.Start returned an error, Stop has been called exactly as often as
Start. -/
theorem payment_issuer_start_stop (m : ConnManager) (cid hid : String)
    (p : ServiceProposal) (pr : ConnectParams) (now : Nat) (ips : List String)
    (sid e : String) (states : List FakeState) (c : Bool)
    (hm : m.status.state = State.NotConnected)
    (h0 : m.issuerStartCount = 0) (h1 : m.issuerStopCount = 0)
    (hs : firstDecisive states = some WaitOutcome.reachedConnected) :
    ((Connect m cid hid p pr
        { now := now, resolverIPs := ips, dialError := none, validatorError := none
          sessionCreateID := sid, factoryError := none, startError := none
          tunnelStates := states, cancelledDuringWait := c }).map
      (fun r => (r.manager.issuerStartCount, r.manager.issuerStopCount,
                 (Disconnect r.manager).manager.issuerStartCount,
                 (Disconnect r.manager).manager.issuerStopCount)) =
      some (1, 0, 1, 1))
    ∧ ((Connect m cid hid p pr
        { now := now, resolverIPs := ips, dialError := none, validatorError := none
          sessionCreateID := sid, factoryError := none, startError := some e
          tunnelStates := states, cancelledDuringWait := c }).map
      (fun r => (r.manager.issuerStartCount, r.manager.issuerStopCount)) =
      some (1, 1)) := by
  have hw : waitOutcome states c = some WaitOutcome.reachedConnected := by
    simp [waitOutcome, hs]
  constructor
  · simp [Connect, hm, hw, h0, h1, Disconnect, rollback]
  · simp [Connect, hm, h0, h1, rollback]

/-- Witness for claim C8 at the fresh Manager and the happy tunnel state
sequence. -/
theorem payment_issuer_start_stop_witness :
    ((Connect (freshManager defaultConfig) consumerID hermesID activeProposal noParams
        { now := mockTime, resolverIPs := ["ip"], dialError := none, validatorError := none
          sessionCreateID := establishedSessionID, factoryError := none, startError := none
          tunnelStates := fullOnStartStates, cancelledDuringWait := false }).map
      (fun r => (r.manager.issuerStartCount, r.manager.issuerStopCount,
                 (Disconnect r.manager).manager.issuerStartCount,
                 (Disconnect r.manager).manager.issuerStopCount)) =
      some (1, 0, 1, 1))
    ∧ ((Connect (freshManager defaultConfig) consumerID hermesID activeProposal noParams
        { now := mockTime, resolverIPs := ["ip"], dialError := none, validatorError := none
          sessionCreateID := establishedSessionID, factoryError := none
          startError := some "fatal connection error"
          tunnelStates := fullOnStartStates, cancelledDuringWait := false }).map
      (fun r => (r.manager.issuerStartCount, r.manager.issuerStopCount)) =
      some (1, 1)) :=
  payment_issuer_start_stop (freshManager defaultConfig) consumerID hermesID activeProposal
    noParams mockTime ["ip"] establishedSessionID "fatal connection error" fullOnStartStates
    false rfl rfl rfl (by decide)

/-- Claim C9: on an EventWakeup sleep notification while Connected, the
Manager reconnects in full with the last recorded Connect arguments: the
handler terminates with the Manager Connected under those arguments, and the
published event trace shows state Connecting at one position and state
Connected at a later one. -/
theorem wakeup_full_reconnect (m : ConnManager) (args : ConnectArgs)
    (now : Nat) (ips : List String) (sid : String) (states : List FakeState) (c : Bool)
    (hm : m.status.state = State.Connected) (ha : m.lastArgs = some args)
    (hs : firstDecisive states = some WaitOutcome.reachedConnected) :
    ∃ mgr evs msgs,
      handleWakeup m
        { now := now, resolverIPs := ips, dialError := none, validatorError := none
          sessionCreateID := sid, factoryError := none, startError := none
          tunnelStates := states, cancelledDuringWait := c } = some (mgr, evs, msgs) ∧
      mgr.status.state = State.Connected ∧
      mgr.status.consumerID = args.consumerID ∧
      mgr.status.hermesID = args.hermesID ∧
      mgr.status.proposal = args.proposal ∧
      ∃ i j, i < j ∧ evs.get? i = some (Event.stateEvent State.Connecting) ∧
        evs.get? j = some (Event.stateEvent State.Connected) := by
  have hw : waitOutcome states c = some WaitOutcome.reachedConnected := by
    simp [waitOutcome, hs]
  simp [handleWakeup, hm, ha, Disconnect, Connect, hw, rollback, ipCheckEvents]
  refine ⟨_, _, ⟨rfl, rfl⟩, rfl, rfl, rfl, rfl, 2, 4, by omega, ?_, ?_⟩ <;> simp

end connection

namespace connection

/-- Witness for claim C9: wake-up at the established Manager with its
recorded arguments and a happy reconnect environment. -/
theorem wakeup_full_reconnect_witness :
    ∃ mgr evs msgs,
      handleWakeup connectedManager
        { now := mockTime, resolverIPs := ["ip"], dialError := none, validatorError := none
          sessionCreateID := establishedSessionID, factoryError := none, startError := none
          tunnelStates := fullOnStartStates, cancelledDuringWait := false } =
        some (mgr, evs, msgs) ∧
      mgr.status.state = State.Connected ∧
      mgr.status.consumerID = consumerID ∧
      mgr.status.hermesID = hermesID ∧
      mgr.status.proposal = activeProposal ∧
      ∃ i j, i < j ∧ evs.get? i = some (Event.stateEvent State.Connecting) ∧
        evs.get? j = some (Event.stateEvent State.Connected) :=
  wakeup_full_reconnect connectedManager
    { consumerID := consumerID, hermesID := hermesID, proposal := activeProposal
      params := noParams }
    mockTime ["ip"] establishedSessionID fullOnStartStates false rfl rfl rfl

end connection
